import Mathlib

/-!
Shallow embedding of the omniview registry-cli release publishing pipeline.

The Go sources embedded here:
  * pkg/types (plugin.go, release.go, plugin_index.go, registry_index.go):
    the data model (PluginMeta, Release, PublishOpts, PluginIndex,
    RegistryIndex) and the pure path/key formatting functions.
  * pkg/indexer.go: the index synchronizer (updateIndex, UpdateIndex and the
    registry-catalog upsert loop).
  * pkg/packager (builder.go, compress.go, util.go): the build orchestrator
    post-join error propagation, the binary-build idempotence shortcut, and
    the tar.gz + sha256 sidecar plumbing.
  * pkg/publish.go: Publisher.Upload error routing.

I/O effects (file system reads, stat calls, subprocess compilers, the object
store, the yaml decoder, the gzip compressor, the sha256 hasher) are passed
in as explicit parameters, so every definition stays executable; the control
flow around them is translated from the source line by line.  Process
termination (panic, log.Fatal) and returned Go errors are reified in the
`Outcome` type.
-/

namespace RegistryCLI

/-- types/plugin.go: PluginMaintainer. -/
structure PluginMaintainer where
  name : String
  email : String
deriving DecidableEq, Repr

/-- types/plugin.go: PluginTheme (nested colors struct flattened). -/
structure PluginTheme where
  primary : String
  secondary : String
  tertiary : String
deriving DecidableEq, Repr

/-- types/plugin.go: PluginMeta, the plugin description file contents. -/
structure PluginMeta where
  id : String
  version : String
  name : String
  icon : String
  description : String
  repository : String
  website : String
  markdown : String
  maintainers : List PluginMaintainer
  tags : List String
  dependencies : List String
  capabilities : List String
  theme : PluginTheme
deriving DecidableEq, Repr

/-- The Go zero value of PluginMeta: every string empty, every slice nil. -/
def PluginMeta.zero : PluginMeta :=
  { id := "", version := "", name := "", icon := "", description := ""
  , repository := "", website := "", markdown := ""
  , maintainers := [], tags := [], dependencies := [], capabilities := []
  , theme := { primary := "", secondary := "", tertiary := "" } }

/-- types/release.go: Release. -/
structure Release where
  plugin : String
  version : String
  os : String
  arch : String
  path : String
deriving DecidableEq, Repr

/-- types/release.go: Release.BucketPath, the remote object key of the
release artifact: fmt.Sprintf of plugin, version, os, arch with the os and
arch joined by a hyphen. -/
def Release.BucketPath (r : Release) : String :=
  r.plugin ++ "/" ++ r.version ++ "/" ++ r.os ++ "-" ++ r.arch ++ ".tar.gz"

/-- types/release.go: Release.OSArch, the architecture key used for the
index: os and arch joined by an underscore. -/
def Release.OSArch (r : Release) : String :=
  r.os ++ "_" ++ r.arch

/-- types/release.go: PublishOpts, the publish request with one artifact
path per supported platform. -/
structure PublishOpts where
  plugin : String
  version : String
  metadataPath : String
  darwinARM64 : String
  darwinAMD64 : String
  windowsARM64 : String
  windowsAMD64 : String
  linuxARM64 : String
  linuxAMD64 : String
deriving DecidableEq, Repr

/-- types/release.go: PublishOpts.ToReleases; only the platform fields with
a non-empty path produce a Release, in the fixed source order. -/
def PublishOpts.ToReleases (p : PublishOpts) : List Release :=
  (if p.darwinARM64 ≠ "" then
    [{ plugin := p.plugin, version := p.version, os := "darwin", arch := "arm64", path := p.darwinARM64 }]
   else []) ++
  (if p.darwinAMD64 ≠ "" then
    [{ plugin := p.plugin, version := p.version, os := "darwin", arch := "amd64", path := p.darwinAMD64 }]
   else []) ++
  (if p.windowsARM64 ≠ "" then
    [{ plugin := p.plugin, version := p.version, os := "windows", arch := "arm64", path := p.windowsARM64 }]
   else []) ++
  (if p.windowsAMD64 ≠ "" then
    [{ plugin := p.plugin, version := p.version, os := "windows", arch := "amd64", path := p.windowsAMD64 }]
   else []) ++
  (if p.linuxARM64 ≠ "" then
    [{ plugin := p.plugin, version := p.version, os := "linux", arch := "arm64", path := p.linuxARM64 }]
   else []) ++
  (if p.linuxAMD64 ≠ "" then
    [{ plugin := p.plugin, version := p.version, os := "linux", arch := "amd64", path := p.linuxAMD64 }]
   else [])

/-- types/plugin_index.go: PluginArchitectureInformation (Size is int64 in
Go, zero valued when stat fails). -/
structure PluginArchitectureInformation where
  checksum : String
  downloadURL : String
  size : Int
deriving DecidableEq, Repr

/-- types/plugin_index.go: PluginVersionInformation.  The Go map
`Architectures map[string]...` is modelled as an association list with
insert-or-replace semantics; time.Time as a Nat tick. -/
structure PluginVersionInformation where
  metadata : PluginMeta
  version : String
  architectures : List (String × PluginArchitectureInformation)
  created : Nat
  updated : Nat
deriving DecidableEq, Repr

/-- types/registry_index.go: RegistryIndexPlugins, one registry catalog
entry. -/
structure RegistryIndexPlugins where
  id : String
  name : String
  icon : String
  description : String
  official : Bool
  latestVersion : PluginVersionInformation
deriving DecidableEq, Repr

/-- types/plugin_index.go: PluginIndex embeds RegistryIndexPlugins and adds
the version list. -/
structure PluginIndex extends RegistryIndexPlugins where
  versions : List PluginVersionInformation
deriving DecidableEq, Repr

/-- types/plugin_index.go: PluginIndex.BucketPath. -/
def PluginIndex.BucketPath (i : PluginIndex) : String :=
  i.id ++ "/index.json"

/-- types/registry_index.go: RegistryIndex. -/
structure RegistryIndex where
  plugins : List RegistryIndexPlugins
deriving DecidableEq, Repr

/-- Go map assignment m[k] = v on an association list: replace the first
binding of k, else append. -/
def mapInsert {α : Type} (k : String) (v : α) : List (String × α) → List (String × α)
  | [] => [(k, v)]
  | (k0, v0) :: rest => if k0 = k then (k, v) :: rest else (k0, v0) :: mapInsert k v rest

/-- The outcome of running a piece of Go code: a normal value, a returned
error, a runtime panic, or a log.Fatal process exit. -/
inductive Outcome (α : Type) where
  | ok (val : α)
  | err (msg : String)
  | panicked (msg : String)
  | fatal (msg : String)
deriving DecidableEq, Repr

/-- Project the value out of an ok outcome, with a default otherwise. -/
def outcomeOk {α : Type} (d : α) : Outcome α → α
  | .ok v => v
  | _ => d

/-- Whether an outcome is a normal value. -/
def Outcome.isOk {α : Type} : Outcome α → Bool
  | .ok _ => true
  | _ => false

/-- The local file system as seen by indexer.go: os.Open followed by
io.Copy into the hasher is one read of the whole content (both failure
points are log.Fatal in the source, so they collapse to one error case),
and os.Stat reports the file size. -/
structure FileSys where
  readResult : String → Except String (List Nat)
  statResult : String → Except String Int

/-- indexer.go updateIndex, lines 145-178: the per-release loop building
the architectures map.  A release whose plugin does not match the index id
is skipped with a log warning; an open/hash error is log.Fatal (reified as
`.error`); a stat error only leaves Size at its zero value 0. -/
def buildArchs (fs : FileSys) (hash : List Nat → String) (indexID : String) :
    List Release → List (String × PluginArchitectureInformation) →
    Except String (List (String × PluginArchitectureInformation))
  | [], acc => .ok acc
  | r :: rest, acc =>
    if r.plugin ≠ indexID then
      buildArchs fs hash indexID rest acc
    else
      match fs.readResult r.path with
      | .error e => .error e
      | .ok content =>
        let info0 : PluginArchitectureInformation :=
          { checksum := hash content, downloadURL := r.BucketPath, size := 0 }
        let info :=
          match fs.statResult r.path with
          | .error _ => info0
          | .ok sz => { info0 with size := sz }
        buildArchs fs hash indexID rest (mapInsert r.OSArch info acc)

/-- indexer.go: updateIndex (lower case).  Panics on an empty release list;
builds a fresh PluginVersionInformation stamped with the current time for
both created and updated; appends it to the version list, sets it as
latest, and refreshes name/icon/description from the metadata. -/
def updateIndex (fs : FileSys) (hash : List Nat → String) (now : Nat)
    (index : PluginIndex) (releases : List Release) (metadata : PluginMeta) :
    Outcome PluginIndex :=
  match releases with
  | [] => .panicked "cannot submit an empty number of releases"
  | r0 :: _ =>
    match buildArchs fs hash index.id releases [] with
    | .error e => .fatal e
    | .ok archs =>
      let versionInfo : PluginVersionInformation :=
        { version := r0.version, architectures := archs
        , created := now, updated := now, metadata := metadata }
      .ok { index with
              latestVersion := versionInfo
            , versions := index.versions ++ [versionInfo]
            , description := metadata.description
            , icon := metadata.icon
            , name := metadata.name }

/-- indexer.go UpdateIndex lines 92-99: the replacement registry entry
built from the freshly merged plugin index, always official. -/
def registryEntry (pi : PluginIndex) : RegistryIndexPlugins :=
  { id := pi.id, name := pi.name, icon := pi.icon
  , description := pi.description, official := true
  , latestVersion := pi.latestVersion }

/-- indexer.go UpdateIndex lines 87-114: linear scan of the registry
plugins, replace the first entry with a matching id (then break), append a
new entry if none matched. -/
def upsertPlugins (entry : RegistryIndexPlugins) :
    List RegistryIndexPlugins → List RegistryIndexPlugins
  | [] => [entry]
  | p :: rest => if p.id = entry.id then entry :: rest else p :: upsertPlugins entry rest

/-- The registry-catalog step of indexer.go UpdateIndex as one function. -/
def upsertRegistry (reg : RegistryIndex) (pi : PluginIndex) : RegistryIndex :=
  { plugins := upsertPlugins (registryEntry pi) reg.plugins }

/-- The metadata file source seen by types/plugin.go LoadMetadata: os.Open
may fail, and the yaml decode of the opened bytes may fail. -/
structure MetaSource where
  openFile : String → Except Unit (List Nat)
  decode : List Nat → Except Unit PluginMeta

/-- types/plugin.go: LoadMetadata.  Both the open failure and the decode
failure return the zero-valued PluginMeta with no error signal. -/
def LoadMetadata (src : MetaSource) (path : String) : PluginMeta :=
  match src.openFile path with
  | .error _ => PluginMeta.zero
  | .ok doc =>
    match src.decode doc with
    | .error _ => PluginMeta.zero
    | .ok m => m

/-- indexer.go: UpdateIndex (capitalized), the whole synchronization:
load metadata (never fails), fetch the plugin index (error returned),
derive releases, merge (may panic or log.Fatal), store the plugin index,
fetch the registry index, upsert, store it.  The four remote round trips
are passed in as their results. -/
def UpdateIndex (src : MetaSource) (fs : FileSys) (hash : List Nat → String)
    (now : Nat)
    (fetchPlugin : Except String PluginIndex)
    (putPlugin : Except String Unit)
    (fetchRegistry : Except String RegistryIndex)
    (putRegistry : Except String Unit)
    (opts : PublishOpts) : Outcome (PluginIndex × RegistryIndex) :=
  let metadata := LoadMetadata src opts.metadataPath
  match fetchPlugin with
  | .error e => .err e
  | .ok index =>
    let releases := opts.ToReleases
    match updateIndex fs hash now index releases metadata with
    | .panicked m => .panicked m
    | .fatal m => .fatal m
    | .err m => .err m
    | .ok pluginIndex =>
      match putPlugin with
      | .error e => .err e
      | .ok _ =>
        match fetchRegistry with
        | .error e => .err e
        | .ok reg =>
          let merged := upsertRegistry reg pluginIndex
          match putRegistry with
          | .error e => .err e
          | .ok _ => .ok (pluginIndex, merged)

/-- packager/util.go: Platform. -/
structure Platform where
  os : String
  arch : String
deriving DecidableEq, Repr

/-- packager/util.go: Platform.Key, os and arch joined by an underscore. -/
def Platform.key (p : Platform) : String :=
  p.os ++ "_" ++ p.arch

/-- packager/builder.go: BuildResult. -/
structure BuildResult where
  platform : Platform
  outputDir : String
  err : Option String
deriving DecidableEq, Repr

/-- packager/builder.go BuildAll step 4: collect one BuildResult per
platform from the per-platform binary build outcomes (concurrency is
joined before any result is read, so the fan-out is modelled as a map). -/
def mkBinResults (binErr : Platform → Option String)
    (outputDirs : Platform → String) (platforms : List Platform) :
    List BuildResult :=
  platforms.map fun plat =>
    { platform := plat, outputDir := outputDirs plat, err := binErr plat }

/-- packager/builder.go BuildAll lines 64-71: after the join, a UI build
failure is written into every result whose error is still nil; results
that already failed keep their own error. -/
def applyUIOutcome (uiErr : Option String) (results : List BuildResult) :
    List BuildResult :=
  match uiErr with
  | none => results
  | some e =>
    results.map fun r =>
      if r.err = none then { r with err := some ("UI build failed: " ++ e) } else r

/-- packager/builder.go: BuildAll as a two-phase join: binary results
first, then the post-hoc UI-failure invalidation rule. -/
def BuildAll (binErr : Platform → Option String)
    (outputDirs : Platform → String) (uiErr : Option String)
    (platforms : List Platform) : List BuildResult :=
  applyUIOutcome uiErr (mkBinResults binErr outputDirs platforms)

/-- The file system state the binary build step touches: the set of paths
that exist. -/
structure BuildFS where
  files : List String
deriving DecidableEq, Repr

/-- os.Stat err == nil check of builder.go line 83. -/
def BuildFS.hasFile (fs : BuildFS) (p : String) : Bool :=
  fs.files.contains p

/-- packager/builder.go lines 77-80: binary name, with .exe on windows. -/
def binName (plat : Platform) : String :=
  if plat.os = "windows" then "plugin" ++ ".exe" else "plugin"

/-- packager/builder.go line 81: the expected output binary path. -/
def binOutPath (output : String) (plat : Platform) : String :=
  output ++ "/bin/" ++ binName plat

/-- Result of one buildBinary invocation: the file system afterwards, the
returned error, and whether the compiler was invoked. -/
structure BinBuildStep where
  fs : BuildFS
  err : Option String
  compiled : Bool
deriving DecidableEq, Repr

/-- packager/builder.go: buildBinary.  If the expected output binary
already exists the build is skipped and reported successful; otherwise the
compiler (abstracted as its outcome compileErr) runs, creating the output
file on success and returning a wrapped error on failure. -/
def buildBinary (compileErr : Option String) (fs : BuildFS)
    (output : String) (plat : Platform) : BinBuildStep :=
  let outPath := binOutPath output plat
  if fs.hasFile outPath then
    { fs := fs, err := none, compiled := false }
  else
    match compileErr with
    | some e =>
      { fs := fs
      , err := some ("binary build failed for " ++ plat.key ++ ": " ++ e)
      , compiled := true }
    | none =>
      { fs := { files := outPath :: fs.files }, err := none, compiled := true }

/-- The two sinks fed by the io.MultiWriter of packager/compress.go: the
output file and the sha256 hasher input. -/
structure Sinks where
  outFile : List Nat
  hasherInput : List Nat
deriving DecidableEq, Repr

/-- One write through the MultiWriter: the chunk goes to both sinks. -/
def multiWrite (s : Sinks) (chunk : List Nat) : Sinks :=
  { outFile := s.outFile ++ chunk, hasherInput := s.hasherInput ++ chunk }

/-- The sequence of writes the gzip writer emits to its underlying
MultiWriter. -/
def writeChunks (s : Sinks) : List (List Nat) → Sinks
  | [] => s
  | c :: cs => writeChunks (multiWrite s c) cs

/-- One file added to the tar stream: its relative path header and its
content bytes. -/
structure TarEntry where
  relPath : String
  content : List Nat

/-- The byte stream the tar writer feeds into the gzip writer: for every
file a header followed by its content (compress.go walk body). -/
def tarStream (serializeHeader : TarEntry → List Nat) :
    List TarEntry → List Nat
  | [] => []
  | e :: es => serializeHeader e ++ e.content ++ tarStream serializeHeader es

/-- Lower-case hex digit of a nibble. -/
def hexDigit (n : Nat) : Char :=
  if n < 10 then Char.ofNat (48 + n) else Char.ofNat (87 + n)

/-- Two hex digits of a byte (hex.EncodeToString per byte). -/
def hexByte (b : Nat) : String :=
  String.mk [hexDigit (b / 16 % 16), hexDigit (b % 16)]

/-- encoding/hex EncodeToString over a byte list. -/
def hexEncode (bs : List Nat) : String :=
  String.join (bs.map hexByte)

/-- Concatenation of the emitted chunks. -/
def concatChunks (cs : List (List Nat)) : List Nat :=
  cs.foldr (· ++ ·) []

/-- What TarGz leaves behind on the happy path: the bytes of the .tar.gz
output file and the content of the .sha256 sidecar file. -/
structure TarGzOutput where
  outFileBytes : List Nat
  sidecarContent : String
deriving DecidableEq, Repr

/-- packager/compress.go: TarGz plumbing.  The tar stream of all walked
files is compressed by the gzip writer (abstracted as the chunk sequence it
emits for a given input), every emitted chunk passes through the
MultiWriter into both the output file and the sha256 hasher, and the
sidecar file receives exactly the hex-encoded digest of the hasher input
(os.WriteFile of the checksum string alone). -/
def TarGz (compressChunks : List Nat → List (List Nat))
    (sha256 : List Nat → List Nat) (serializeHeader : TarEntry → List Nat)
    (entries : List TarEntry) : TarGzOutput :=
  let s := writeChunks { outFile := [], hasherInput := [] }
    (compressChunks (tarStream serializeHeader entries))
  { outFileBytes := s.outFile
  , sidecarContent := hexEncode (sha256 s.hasherInput) }

/-- A store error as the Upload code sees it: the smithy APIError code and
the rendered message. -/
structure StoreErr where
  code : String
  msg : String
deriving DecidableEq, Repr

/-- The result of the PutObject call inside Upload. -/
inductive PutResult where
  | ok
  | err (e : StoreErr)
deriving DecidableEq, Repr

/-- publish.go: Publisher.Upload.  Opens the local artifact, puts it to the
release bucket path, distinguishes the EntityTooLarge store rejection from
every other store error (which is wrapped with the path, bucket and target
key), then waits for the object to exist.  Error message text follows the
source with contractions expanded. -/
def Upload (openResult : Except String Unit) (putResult : PutResult)
    (waitOk : Bool) (bucket : String) (release : Release) :
    Except String String :=
  match openResult with
  | .error e =>
    .error ("could not open file " ++ release.path ++ " to upload: " ++ e)
  | .ok _ =>
    match putResult with
    | .err e =>
      if e.code = "EntityTooLarge" then
        .error ("error while uploading object to " ++ bucket ++ ": the object is too large")
      else
        .error ("could not upload file " ++ release.path ++ " to " ++ bucket
          ++ ":" ++ release.BucketPath ++ ": " ++ e.msg)
    | .ok =>
      if waitOk then .ok release.BucketPath
      else .error ("failed attempt to wait for object " ++ release.BucketPath ++ " to exist")

/-! Concrete fixtures used by counterexamples and witnesses. -/

/-- A pre-existing version record for version 1.2.0, created at tick 0. -/
def rec0 : PluginVersionInformation :=
  { metadata := PluginMeta.zero, version := "1.2.0", architectures := []
  , created := 0, updated := 0 }

/-- A plugin catalog for plugin p that already holds a record for 1.2.0. -/
def idx0 : PluginIndex :=
  { id := "p", name := "p", icon := "", description := "", official := false
  , latestVersion := rec0, versions := [rec0] }

/-- A linux/amd64 release of plugin p, version 1.2.0. -/
def rel0 : Release :=
  { plugin := "p", version := "1.2.0", os := "linux", arch := "amd64", path := "/a" }

/-- A file system on which every read and stat succeeds. -/
def fs0 : FileSys :=
  { readResult := fun _ => .ok [7], statResult := fun _ => .ok 3 }

/-- A file system on which reads succeed but stat fails. -/
def fsStatErr : FileSys :=
  { readResult := fun _ => .ok [7], statResult := fun _ => .error "stat failed" }

/-- A file system on which opening the artifact fails. -/
def fsReadErr : FileSys :=
  { readResult := fun _ => .error "open failed", statResult := fun _ => .ok 3 }

/-- A stand-in content hash. -/
def hash0 : List Nat → String := fun _ => "cafe"

/-- The catalog produced by re-publishing 1.2.0 against idx0 at tick 5. -/
def c1out : PluginIndex :=
  outcomeOk idx0 (updateIndex fs0 hash0 5 idx0 [rel0] PluginMeta.zero)

/-- A concrete platform target. -/
def plat0 : Platform := { os := "linux", arch := "amd64" }

/-! Claim theorems. -/

/-- Claim C3, counterexample: the remote key of a concrete release joins os
and arch with a hyphen, not with the underscore the claim states. -/
theorem C3_counterexample :
    Release.BucketPath { plugin := "p", version := "1.0.0", os := "linux", arch := "amd64", path := "x" }
      = "p/1.0.0/linux-amd64.tar.gz" ∧
    "p/1.0.0/linux-amd64.tar.gz" ≠ "p/1.0.0/linux_amd64.tar.gz" := by
  exact ⟨rfl, by decide⟩

/-- Claim C3, amended: for every Release the upload/record key is
plugin/version/os-arch.tar.gz (hyphen between os and arch); the underscore
join os_arch is the architecture key used inside the index instead. -/
theorem C3_bucketPath_hyphen (r : Release) :
    r.BucketPath = r.plugin ++ "/" ++ r.version ++ "/" ++ r.os ++ "-" ++ r.arch ++ ".tar.gz" ∧
    r.OSArch = r.os ++ "_" ++ r.arch :=
  ⟨rfl, rfl⟩

/-- Claim C1, counterexample: re-publishing version 1.2.0 against a catalog
that already holds a record for 1.2.0 succeeds and leaves two records for
that version in the version list (a duplicate), the new one stamped with a
fresh created timestamp. -/
theorem C1_counterexample :
    (updateIndex fs0 hash0 5 idx0 [rel0] PluginMeta.zero).isOk = true ∧
    (c1out.versions.countP fun v => v.version == "1.2.0") = 2 ∧
    c1out.latestVersion.created = 5 ∧ rec0.created = 0 := by
  decide

/-- Claim C1, amended: updating the index for a version that already has a
record does not touch the existing record; instead it appends one fresh
record for that version to the end of the version list (duplicating the
version), with both created and updated set to the current time, and sets
it as latest. -/
theorem C1_republish_appends (fs : FileSys) (hash : List Nat → String)
    (now : Nat) (index : PluginIndex) (r : Release) (rest : List Release)
    (metadata : PluginMeta) (out : PluginIndex)
    (h : updateIndex fs hash now index (r :: rest) metadata = .ok out) :
    out.versions = index.versions ++ [out.latestVersion] ∧
    out.latestVersion.version = r.version ∧
    out.latestVersion.created = now ∧
    out.latestVersion.updated = now := by
  simp only [updateIndex] at h
  cases hb : buildArchs fs hash index.id (r :: rest) [] with
  | error e =>
    rw [hb] at h
    exact Outcome.noConfusion h
  | ok archs =>
    rw [hb] at h
    injection h with h
    subst h
    exact ⟨rfl, rfl, rfl, rfl⟩

/-- Witness for C1_republish_appends at the concrete re-publish fixture. -/
theorem C1_republish_appends_witness :
    c1out.versions = idx0.versions ++ [c1out.latestVersion] :=
  (C1_republish_appends fs0 hash0 5 idx0 rel0 [] PluginMeta.zero c1out (by decide)).1

/-- Claim C2, counterexample: with one platform whose binary build already
failed, a UI build failure leaves that platform result carrying its own
binary error unchanged, which is not the UI failure. -/
theorem C2_counterexample :
    BuildAll (fun _ => some "compile exploded") (fun _ => "d") (some "boom") [plat0] =
      [{ platform := plat0, outputDir := "d", err := some "compile exploded" }] ∧
    "compile exploded" ≠ "UI build failed: " ++ "boom" := by
  decide

/-- Claim C2, amended: when the shared UI build fails, every returned
BuildResult has a non-nil error; a platform whose binary build succeeded
gets the UI failure as its error, while a platform whose binary build had
already failed keeps its own binary error (which does not carry the UI
failure). -/
theorem C2_ui_failure_routing (binErr : Platform → Option String)
    (outputDirs : Platform → String) (e : String) (platforms : List Platform) :
    BuildAll binErr outputDirs (some e) platforms =
      platforms.map fun plat =>
        { platform := plat, outputDir := outputDirs plat
        , err := some (match binErr plat with
                       | none => "UI build failed: " ++ e
                       | some b => b) } := by
  simp only [BuildAll, applyUIOutcome, mkBinResults, List.map_map]
  apply List.map_congr_left
  intro a _
  cases hb : binErr a <;> simp [Function.comp, hb]

/-- Claim C4, counterexample: a stat failure on the local artifact is not
fatal: the merge still returns normally and produces the version record,
with the size left at 0. -/
theorem C4_counterexample :
    (updateIndex fsStatErr hash0 3 idx0 [rel0] PluginMeta.zero).isOk = true ∧
    (outcomeOk idx0 (updateIndex fsStatErr hash0 3 idx0 [rel0] PluginMeta.zero)).latestVersion.architectures =
      [("linux_amd64",
        { checksum := "cafe", downloadURL := "p/1.2.0/linux-amd64.tar.gz", size := 0 })] := by
  decide

/-- Claim C4, amended: in step 2, an error from opening or hashing the
local artifact is immediately fatal to the whole process, but an error
from stat-ing it is only logged: the version record is still produced with
size 0 and the merge returns normally so the catalog writes proceed. -/
theorem C4_read_fatal_stat_nonfatal (fs : FileSys) (hash : List Nat → String)
    (now : Nat) (index : PluginIndex) (r : Release) (metadata : PluginMeta)
    (hid : r.plugin = index.id) :
    (∀ e, fs.readResult r.path = .error e →
      updateIndex fs hash now index [r] metadata = .fatal e) ∧
    (∀ content e2, fs.readResult r.path = .ok content →
      fs.statResult r.path = .error e2 →
      updateIndex fs hash now index [r] metadata = .ok
        { index with
            latestVersion :=
              { version := r.version
              , architectures :=
                  [(r.OSArch, { checksum := hash content, downloadURL := r.BucketPath, size := 0 })]
              , created := now, updated := now, metadata := metadata }
          , versions := index.versions ++
              [{ version := r.version
               , architectures :=
                   [(r.OSArch, { checksum := hash content, downloadURL := r.BucketPath, size := 0 })]
               , created := now, updated := now, metadata := metadata }]
          , description := metadata.description
          , icon := metadata.icon
          , name := metadata.name }) := by
  constructor
  · intro e he
    simp [updateIndex, buildArchs, hid, he]
  · intro content e2 hc hs
    simp [updateIndex, buildArchs, hid, hc, hs, mapInsert]

/-- Witness for C4_read_fatal_stat_nonfatal: a concrete open failure is
fatal with that error. -/
theorem C4_read_fatal_stat_nonfatal_witness :
    updateIndex fsReadErr hash0 3 idx0 [rel0] PluginMeta.zero = .fatal "open failed" :=
  (C4_read_fatal_stat_nonfatal fsReadErr hash0 3 idx0 rel0 PluginMeta.zero rfl).1
    "open failed" rfl

/-- upsertPlugins appends when no entry has the new id. -/
theorem upsertPlugins_of_not_mem (entry : RegistryIndexPlugins)
    (l : List RegistryIndexPlugins) (h : ∀ p ∈ l, p.id ≠ entry.id) :
    upsertPlugins entry l = l ++ [entry] := by
  induction l with
  | nil => rfl
  | cons p rest ih =>
    have hp : p.id ≠ entry.id := h p (by simp)
    simp [upsertPlugins, hp, ih fun q hq => h q (by simp [hq])]

/-- upsertPlugins preserves the length when some entry matches the id. -/
theorem upsertPlugins_length_of_mem (entry : RegistryIndexPlugins)
    (l : List RegistryIndexPlugins) (h : ∃ p ∈ l, p.id = entry.id) :
    (upsertPlugins entry l).length = l.length := by
  induction l with
  | nil => simp at h
  | cons p rest ih =>
    by_cases hp : p.id = entry.id
    · simp [upsertPlugins, hp]
    · obtain ⟨q, hq, hqid⟩ := h
      rcases List.mem_cons.mp hq with rfl | hq
      · exact absurd hqid hp
      · simp [upsertPlugins, hp, ih ⟨q, hq, hqid⟩]

/-- The upserted entry is always present afterwards. -/
theorem mem_upsertPlugins (entry : RegistryIndexPlugins)
    (l : List RegistryIndexPlugins) : entry ∈ upsertPlugins entry l := by
  induction l with
  | nil => simp [upsertPlugins]
  | cons p rest ih =>
    by_cases hp : p.id = entry.id <;> simp [upsertPlugins, hp, ih]

/-- Every element of the upserted list is the new entry or an old one. -/
theorem upsertPlugins_mem_elim (entry : RegistryIndexPlugins)
    (l : List RegistryIndexPlugins) (q : RegistryIndexPlugins)
    (hq : q ∈ upsertPlugins entry l) : q = entry ∨ q ∈ l := by
  induction l with
  | nil =>
    simp [upsertPlugins] at hq
    exact .inl hq
  | cons p rest ih =>
    by_cases hp : p.id = entry.id
    · simp only [upsertPlugins, if_pos hp, List.mem_cons] at hq
      rcases hq with rfl | hq
      · exact .inl rfl
      · exact .inr (by simp [hq])
    · simp only [upsertPlugins, if_neg hp, List.mem_cons] at hq
      rcases hq with rfl | hq
      · exact .inr (by simp)
      · rcases ih hq with h | h
        · exact .inl h
        · exact .inr (by simp [h])

/-- upsertPlugins preserves uniqueness of entries by id. -/
theorem upsertPlugins_pairwise (entry : RegistryIndexPlugins)
    (l : List RegistryIndexPlugins)
    (h : l.Pairwise fun a b => a.id ≠ b.id) :
    (upsertPlugins entry l).Pairwise fun a b => a.id ≠ b.id := by
  induction l with
  | nil => simp [upsertPlugins]
  | cons p rest ih =>
    rw [List.pairwise_cons] at h
    obtain ⟨hp1, hp2⟩ := h
    by_cases hp : p.id = entry.id
    · simp only [upsertPlugins, if_pos hp]
      rw [List.pairwise_cons]
      exact ⟨fun q hq => hp ▸ hp1 q hq, hp2⟩
    · simp only [upsertPlugins, if_neg hp]
      rw [List.pairwise_cons]
      refine ⟨fun q hq => ?_, ih hp2⟩
      rcases upsertPlugins_mem_elim entry rest q hq with rfl | hmem
      · exact hp
      · exact hp1 q hmem

/-- Claim C5: the registry catalog upsert. On a catalog whose entries are
unique by id, publishing a plugin not yet present appends exactly one
entry (marked official); publishing one already present keeps the list
length, puts the refreshed entry (rebuilt from the merged plugin index,
marked official) in the list, adds nothing that was not already there, and
uniqueness by id is preserved in either case. -/
theorem C5_registry_upsert (reg : RegistryIndex) (pi : PluginIndex)
    (huniq : reg.plugins.Pairwise fun a b => a.id ≠ b.id) :
    (registryEntry pi).official = true ∧
    ((∀ p ∈ reg.plugins, p.id ≠ pi.id) →
      (upsertRegistry reg pi).plugins = reg.plugins ++ [registryEntry pi]) ∧
    ((∃ p ∈ reg.plugins, p.id = pi.id) →
      (upsertRegistry reg pi).plugins.length = reg.plugins.length ∧
      registryEntry pi ∈ (upsertRegistry reg pi).plugins ∧
      ∀ q ∈ (upsertRegistry reg pi).plugins, q = registryEntry pi ∨ q ∈ reg.plugins) ∧
    (upsertRegistry reg pi).plugins.Pairwise fun a b => a.id ≠ b.id := by
  refine ⟨rfl, ?_, ?_, upsertPlugins_pairwise _ _ huniq⟩
  · intro h
    exact upsertPlugins_of_not_mem _ _ h
  · intro h
    exact ⟨upsertPlugins_length_of_mem _ _ h, mem_upsertPlugins _ _,
      fun q hq => upsertPlugins_mem_elim _ _ q hq⟩

/-- Witness for C5_registry_upsert: upserting plugin p into a one-entry
catalog already holding p keeps the length at one. -/
theorem C5_registry_upsert_witness :
    (upsertRegistry { plugins := [registryEntry idx0] } idx0).plugins.length = 1 :=
  ((C5_registry_upsert { plugins := [registryEntry idx0] } idx0 (by simp)).2.2.1
    ⟨registryEntry idx0, by simp, rfl⟩).1

/-- Both MultiWriter sinks accumulate exactly the concatenation of the
written chunks. -/
theorem writeChunks_spec (s : Sinks) (cs : List (List Nat)) :
    (writeChunks s cs).outFile = s.outFile ++ concatChunks cs ∧
    (writeChunks s cs).hasherInput = s.hasherInput ++ concatChunks cs := by
  induction cs generalizing s with
  | nil => simp [writeChunks, concatChunks]
  | cons c cs ih =>
    simp [writeChunks, concatChunks, multiWrite, ih, List.append_assoc]

/-- Claim C6: for every compressor, hasher and staged file set, the sidecar
content is exactly the hex-encoded digest of the bytes written to the
archive output file (nothing else), and those bytes are the compressed
output of the tar stream, not the uncompressed content. -/
theorem C6_sidecar_hashes_compressed_output
    (compressChunks : List Nat → List (List Nat))
    (sha256 : List Nat → List Nat) (serializeHeader : TarEntry → List Nat)
    (entries : List TarEntry) :
    (TarGz compressChunks sha256 serializeHeader entries).sidecarContent =
      hexEncode (sha256 (TarGz compressChunks sha256 serializeHeader entries).outFileBytes) ∧
    (TarGz compressChunks sha256 serializeHeader entries).outFileBytes =
      concatChunks (compressChunks (tarStream serializeHeader entries)) := by
  have h := writeChunks_spec { outFile := [], hasherInput := [] }
    (compressChunks (tarStream serializeHeader entries))
  constructor
  · show hexEncode (sha256 (writeChunks _ _).hasherInput) = hexEncode (sha256 (writeChunks _ _).outFile)
    rw [h.1, h.2]
  · show (writeChunks _ _).outFile = _
    rw [h.1]
    simp

/-- Claim C7: the binary build step is idempotent. If the expected output
binary already exists, the step invokes no compiler, changes nothing and
reports success; consequently, whenever a first invocation succeeds, a
second invocation right after it is a compile-free no-op that succeeds,
whatever the compiler would have done. -/
theorem C7_buildBinary_idempotent (compileErr compileErr2 : Option String)
    (fs : BuildFS) (output : String) (plat : Platform) :
    (fs.hasFile (binOutPath output plat) = true →
      buildBinary compileErr fs output plat = { fs := fs, err := none, compiled := false }) ∧
    ((buildBinary compileErr fs output plat).err = none →
      buildBinary compileErr2 (buildBinary compileErr fs output plat).fs output plat =
        { fs := (buildBinary compileErr fs output plat).fs, err := none, compiled := false }) := by
  constructor
  · intro h
    simp [buildBinary, h]
  · intro h
    by_cases hf : binOutPath output plat ∈ fs.files
    · simp [buildBinary, BuildFS.hasFile, hf]
    · cases hc : compileErr with
      | some e => simp [buildBinary, BuildFS.hasFile, hf, hc] at h
      | none => simp [buildBinary, BuildFS.hasFile, hf, hc]

/-- Witness for C7_buildBinary_idempotent: building linux/amd64 into an
empty tree succeeds, and the immediate second invocation is a successful
no-op on the resulting tree. -/
theorem C7_buildBinary_idempotent_witness :
    (buildBinary none { files := [] } "out" plat0).err = none ∧
    buildBinary none (buildBinary none { files := [] } "out" plat0).fs "out" plat0 =
      { fs := (buildBinary none { files := [] } "out" plat0).fs, err := none, compiled := false } :=
  ⟨by decide,
   (C7_buildBinary_idempotent none none { files := [] } "out" plat0).2 (by decide)⟩

/-- Claim C8: a store rejection with code EntityTooLarge is surfaced as the
distinguished too-large error (a fixed message naming only the bucket, not
the key and not the store message), while every other store error is
wrapped with the artifact path, the bucket and the target key. -/
theorem C8_upload_error_routing (bucket : String) (release : Release)
    (e : StoreErr) (waitOk : Bool) :
    (e.code = "EntityTooLarge" →
      Upload (.ok ()) (.err e) waitOk bucket release =
        .error ("error while uploading object to " ++ bucket ++ ": the object is too large")) ∧
    (e.code ≠ "EntityTooLarge" →
      Upload (.ok ()) (.err e) waitOk bucket release =
        .error ("could not upload file " ++ release.path ++ " to " ++ bucket
          ++ ":" ++ release.BucketPath ++ ": " ++ e.msg)) := by
  constructor <;> intro h <;> simp [Upload, h]

/-- Witness for C8_upload_error_routing on both branches. -/
theorem C8_upload_error_routing_witness :
    Upload (.ok ()) (.err { code := "EntityTooLarge", msg := "big" }) true "b" rel0 =
      .error "error while uploading object to b: the object is too large" ∧
    Upload (.ok ()) (.err { code := "SlowDown", msg := "throttled" }) true "b" rel0 =
      .error "could not upload file /a to b:p/1.2.0/linux-amd64.tar.gz: throttled" :=
  ⟨(C8_upload_error_routing "b" rel0 { code := "EntityTooLarge", msg := "big" } true).1 rfl,
   by rw [(C8_upload_error_routing "b" rel0 { code := "SlowDown", msg := "throttled" } true).2 (by decide)]; rfl⟩

/-- Claim C9: a publish request whose six per-platform path fields are all
empty derives an empty release list; the merge step then panics with the
fixed message instead of returning an error value, and UpdateIndex never
reaches a normal result on such a request, whatever the remote store
returns. -/
theorem C9_empty_releases_panic (opts : PublishOpts)
    (h1 : opts.darwinARM64 = "") (h2 : opts.darwinAMD64 = "")
    (h3 : opts.windowsARM64 = "") (h4 : opts.windowsAMD64 = "")
    (h5 : opts.linuxARM64 = "") (h6 : opts.linuxAMD64 = "")
    (src : MetaSource) (fs : FileSys) (hash : List Nat → String) (now : Nat)
    (putPlugin : Except String Unit)
    (fetchRegistry : Except String RegistryIndex)
    (putRegistry : Except String Unit) :
    opts.ToReleases = [] ∧
    (∀ index : PluginIndex,
      UpdateIndex src fs hash now (.ok index) putPlugin fetchRegistry putRegistry opts =
        .panicked "cannot submit an empty number of releases") ∧
    (∀ (fetchPlugin : Except String PluginIndex) (res : PluginIndex × RegistryIndex),
      UpdateIndex src fs hash now fetchPlugin putPlugin fetchRegistry putRegistry opts ≠ .ok res) := by
  have hrel : opts.ToReleases = [] := by
    simp [PublishOpts.ToReleases, h1, h2, h3, h4, h5, h6]
  refine ⟨hrel, fun index => ?_, fun fetchPlugin res => ?_⟩
  · simp [UpdateIndex, hrel, updateIndex]
  · cases fetchPlugin with
    | error e => simp [UpdateIndex]
    | ok index => simp [UpdateIndex, hrel, updateIndex]

/-- A publish request with every per-platform path empty. -/
def optsEmpty : PublishOpts :=
  { plugin := "p", version := "1.2.0", metadataPath := "m"
  , darwinARM64 := "", darwinAMD64 := "", windowsARM64 := "", windowsAMD64 := ""
  , linuxARM64 := "", linuxAMD64 := "" }

/-- A metadata source whose open always fails. -/
def metaSrc0 : MetaSource :=
  { openFile := fun _ => .error (), decode := fun _ => .ok PluginMeta.zero }

/-- Witness for C9_empty_releases_panic at a concrete empty request. -/
theorem C9_empty_releases_panic_witness :
    optsEmpty.ToReleases = [] ∧
    UpdateIndex metaSrc0 fs0 hash0 0 (.ok idx0) (.ok ()) (.ok { plugins := [] }) (.ok ()) optsEmpty =
      .panicked "cannot submit an empty number of releases" :=
  ⟨(C9_empty_releases_panic optsEmpty rfl rfl rfl rfl rfl rfl metaSrc0 fs0 hash0 0
      (.ok ()) (.ok { plugins := [] }) (.ok ())).1,
   (C9_empty_releases_panic optsEmpty rfl rfl rfl rfl rfl rfl metaSrc0 fs0 hash0 0
      (.ok ()) (.ok { plugins := [] }) (.ok ())).2.1 idx0⟩

/-- Claim C10: a metadata path that cannot be opened, or whose content
fails to decode, yields the zero-valued descriptor with no error signal;
the merge then proceeds and overwrites the catalog name, icon and
description with empty strings whenever it returns normally. -/
theorem C10_metadata_failure_zeroes (src : MetaSource) (path : String) :
    (∀ u, src.openFile path = .error u → LoadMetadata src path = PluginMeta.zero) ∧
    (∀ doc u, src.openFile path = .ok doc → src.decode doc = .error u →
      LoadMetadata src path = PluginMeta.zero) ∧
    (∀ (fs : FileSys) (hash : List Nat → String) (now : Nat)
        (index : PluginIndex) (releases : List Release) (out : PluginIndex),
      updateIndex fs hash now index releases PluginMeta.zero = .ok out →
      out.name = "" ∧ out.icon = "" ∧ out.description = "") := by
  refine ⟨fun u h => ?_, fun doc u h1 h2 => ?_, ?_⟩
  · simp [LoadMetadata, h]
  · simp [LoadMetadata, h1, h2]
  · intro fs hash now index releases out h
    cases releases with
    | nil => simp [updateIndex] at h
    | cons r rest =>
      simp only [updateIndex] at h
      cases hb : buildArchs fs hash index.id (r :: rest) [] with
      | error e =>
        rw [hb] at h
        exact Outcome.noConfusion h
      | ok archs =>
        rw [hb] at h
        injection h with h
        subst h
        exact ⟨rfl, rfl, rfl⟩

/-- Witness for C10_metadata_failure_zeroes: a failing open yields the zero
descriptor, and the concrete merge with it blanks the catalog name. -/
theorem C10_metadata_failure_zeroes_witness :
    LoadMetadata metaSrc0 "m" = PluginMeta.zero ∧ c1out.name = "" :=
  ⟨(C10_metadata_failure_zeroes metaSrc0 "m").1 () rfl,
   ((C10_metadata_failure_zeroes metaSrc0 "m").2.2 fs0 hash0 5 idx0 [rel0] c1out
      (by decide)).1⟩

end RegistryCLI
